import Mathlib

/-!
Shallow embedding of the benchpmc core (a FreeBSD `pmc(3)` benchmark harness)
for checking its natural-language specification.

The embedding covers:
* the `Error` enum of `src/error.rs`;
* the `Counter` trait of `src/runner/mod.rs` as a record of state-passing
  operations (`CounterOps`), where each method returns the mutated state
  together with an optional error, mirroring Rust's `&mut self` methods
  returning `Result`;
* `Child::run` of `src/runner/exec.rs` (the wait-status to exit-code map);
* `Exec::exec` of `src/runner/exec.rs` (the fork branch structure);
* `Runner::run` of `src/runner/mod.rs`, instrumented with a trace of the
  counter calls it performs so that call-ordering claims can be stated;
* `RSDPrinter` of `src/event/printers/rsd/mod.rs` with its statistics
  (`mean`, `variance`, `stddev`, `rsd`); `u64` sums are modelled on `Nat`
  with wrapping modulo `2 ^ 64` (Rust release-profile overflow semantics),
  and `f64` arithmetic is modelled over `ℚ`/`ℝ`, with the IEEE special
  values of the final division captured by a small `F64` type;
* `RelativePrinter` of `src/event/printers/relative.rs`;
* the test double `Event`/`MockEvent` of `src/runner/tests/mock_event.rs`,
  used to instantiate the generic theorems at concrete counters.
-/

namespace Benchpmc

/-- The `Error` enum of `src/error.rs` (the `cfg(test)` variant `MockError`
and `ExecError(String)`; the FreeBSD-only `PmcError` variant is omitted as
it cannot arise in the embedded code paths). -/
inductive Error where
  | MockError : Error
  | ExecError : String → Error
deriving DecidableEq, Repr

/-- One observable call made by `Runner::run` on the counter at a given
index of the `events` slice. Used to instrument the embedding of
`Runner::run` with the sequence of counter-trait calls it performs. -/
inductive Call where
  | attach : Nat → Nat → Call
  | start : Nat → Call
  | stop : Nat → Call
  | set : Nat → Nat → Call
deriving DecidableEq, Repr

/-- The `Counter` trait of `src/runner/mod.rs`, as state-passing functions:
each Rust method takes `&mut self` and returns a `Result`, modelled here as
returning the new state together with the error part of the result
(`Option Error` for the `Result<(), Error>` methods, `Except Error Nat`
for `set`, whose `Ok` carries a `u64`). -/
structure CounterOps (σ : Type) where
  attach : σ → Nat → σ × Option Error
  start : σ → σ × Option Error
  stop : σ → σ × Option Error
  set : σ → Nat → σ × Except Error Nat

/-- One `for counter in events.iter_mut() { counter.m()?; }` loop of
`Runner::run`: drives method `f` over the counter states in order,
stopping at the first failure; returns the updated states, the trace of
calls made (tagged by `tag`, with `i` the index of the first counter),
and the first error if any. -/
def phaseLoop {σ : Type} (f : σ → σ × Option Error) (tag : Nat → Call) :
    Nat → List σ → List σ × List Call × Option Error
  | _, [] => ([], [], none)
  | i, s :: rest =>
    match f s with
    | (s', some e) => (s' :: rest, [tag i], some e)
    | (s', none) =>
      let r := phaseLoop f tag (i + 1) rest
      (s' :: r.1, tag i :: r.2.1, r.2.2)

/-- `BAD_EXEC` of `src/runner/exec.rs:11`: the reserved exit code the child
uses when `execvp` fails. -/
def BAD_EXEC : Int := 42

/-- The outcome of `waitpid` as seen by `Child::run`
(`src/runner/exec.rs:108-112`): a normal exit with a code, a
signal-termination, or any other/error outcome (all other `WaitStatus`
variants and `waitpid` errors fall into the wildcard arm). -/
inductive WaitStatus where
  | exited : Nat → Int → WaitStatus
  | signaled : WaitStatus
  | other : WaitStatus
deriving DecidableEq, Repr

/-- `Child::run` of `src/runner/exec.rs:101-113`: `self.pid?` returns
`none` when no pid was recorded; otherwise the `waitpid` outcome is mapped
with `Exited(_, BAD_EXEC) => None`, `Exited(_, val) => Some(val)` and a
wildcard `_ => None`. The Rust match tries the `BAD_EXEC` literal arm
first, so a normal exit maps to `some code` only when `code ≠ BAD_EXEC`. -/
def Child.run (pid : Option Nat) (wait : WaitStatus) : Option Int :=
  match pid with
  | none => none
  | some _ =>
    match wait with
    | WaitStatus.exited _ code => if code = BAD_EXEC then none else some code
    | _ => none

/-- The result of the `fork()` call inside `Exec::exec`
(`src/runner/exec.rs:63`): parent branch with the child's pid, child
branch, or failure. -/
inductive ForkResult where
  | parent : Nat → ForkResult
  | child : ForkResult
  | fail : ForkResult
deriving DecidableEq, Repr

/-- The possible continuations of `Exec::exec` (`src/runner/exec.rs:48-81`):
the parent returns a `Child` handle holding `Some(pid)`; the forked child
branch goes on to block and `execvp` the target (it never returns a
handle); a fork failure hits `Err(_) => panic!("fork failed")`. -/
inductive ExecOutcome where
  | handle : Option Nat → ExecOutcome
  | childBranch : ExecOutcome
  | panicked : String → ExecOutcome
deriving DecidableEq, Repr

/-- Whether `Exec::exec` returned a value to its caller (as opposed to
panicking or being the forked child's continuation). -/
def ExecOutcome.isReturn : ExecOutcome → Bool
  | ExecOutcome.handle _ => true
  | _ => false

/-- `Exec::exec` of `src/runner/exec.rs:48-81`, as a function of the fork
outcome. On `Parent { child }` the returned `Child` has `pid = Some(child)`;
on the child branch execution continues towards `execvp`; on fork failure
the code runs `panic!("fork failed")`. -/
def Exec.exec (fork : ForkResult) : ExecOutcome :=
  match fork with
  | ForkResult.parent child => ExecOutcome.handle (some child)
  | ForkResult.child => ExecOutcome.childBranch
  | ForkResult.fail => ExecOutcome.panicked "fork failed"

/-- The way `Runner::run` terminates: a normal `Ok(())`, an `Err(e)`
return, or a process panic (from `.unwrap()` on a failed `start`/`stop`). -/
inductive RunOutcome where
  | ok : RunOutcome
  | err : Error → RunOutcome
  | panic : String → RunOutcome
deriving DecidableEq, Repr

/-- The instrumented result of one `Runner::run`: the final counter
states, the trace of counter calls performed, and how the run ended. -/
structure RunResult (σ : Type) where
  states : List σ
  trace : List Call
  outcome : RunOutcome
deriving DecidableEq, Repr

/-- The body of the reset loop of `Runner::run` (`counter.set(0)?`,
`src/runner/mod.rs:67-69`): calls `set 0` and discards the `Ok` value,
keeping only a possible error. -/
def setStep {σ : Type} (ops : CounterOps σ) (s : σ) : σ × Option Error :=
  match ops.set s 0 with
  | (s', Except.error e) => (s', some e)
  | (s', Except.ok _) => (s', none)

/-- `Runner::run` of `src/runner/mod.rs:36-72`. Inputs beyond the counter
states: `pid?` models `child.pid()` (an `Option`), and `wait` models the
`waitpid` outcome observed by `child.run()`. Control flow mirrors the
source: missing pid is an `ExecError`; the attach loop propagates its
first error with `?`; the start loop calls `.unwrap()`, so a start error
panics; `child.run()` is matched with `Some(0) => Ok`, `Some(_) =>`
`"non-zero exit status"` and `None => "failed to exec"`, the error being
returned with `?` before the stop loop; the stop loop calls `.unwrap()`;
the reset loop `set(0)?` propagates its first error. -/
def Runner.run {σ : Type} (ops : CounterOps σ) (pid? : Option Nat)
    (wait : WaitStatus) (counters : List σ) : RunResult σ :=
  match pid? with
  | none => ⟨counters, [], RunOutcome.err (Error.ExecError "failed to start child process")⟩
  | some pid =>
    match phaseLoop (fun s => ops.attach s pid) (fun i => Call.attach i pid) 0 counters with
    | (s1, t1, some e) => ⟨s1, t1, RunOutcome.err e⟩
    | (s1, t1, none) =>
      match phaseLoop ops.start Call.start 0 s1 with
      | (s2, t2, some _) => ⟨s2, t1 ++ t2, RunOutcome.panic "called unwrap on an Err value"⟩
      | (s2, t2, none) =>
        match Child.run (some pid) wait with
        | some code =>
          if code = 0 then
            match phaseLoop ops.stop Call.stop 0 s2 with
            | (s3, t3, some _) =>
              ⟨s3, t1 ++ t2 ++ t3, RunOutcome.panic "called unwrap on an Err value"⟩
            | (s3, t3, none) =>
              match phaseLoop (setStep ops) (fun i => Call.set i 0) 0 s3 with
              | (s4, t4, some e) => ⟨s4, t1 ++ t2 ++ t3 ++ t4, RunOutcome.err e⟩
              | (s4, t4, none) => ⟨s4, t1 ++ t2 ++ t3 ++ t4, RunOutcome.ok⟩
          else ⟨s2, t1 ++ t2, RunOutcome.err (Error.ExecError "non-zero exit status")⟩
        | none => ⟨s2, t1 ++ t2, RunOutcome.err (Error.ExecError "failed to exec")⟩

/-- The state of an `RSDPrinter<T>` (`src/event/printers/rsd/mod.rs:21-24`):
the wrapped counter's state and the `values: Vec<u64>` of observations. -/
structure RSDPrinter (σ : Type) where
  counter : σ
  values : List Nat
deriving DecidableEq, Repr

/-- `RSDPrinter::set` (`src/event/printers/rsd/mod.rs:39-46`):
`self.counter.set(value).and_then(|v| { self.values.push(v); Ok(v) })` —
forwards to the wrapped counter's `set`; on `Ok(v)` pushes `v` onto
`values` and returns `Ok(v)`; on `Err(e)` the error propagates and
nothing is pushed (the wrapped counter's state mutation is kept, as in
Rust, where the counter was mutated through `&mut self`). -/
def RSDPrinter.set {σ : Type} (ops : CounterOps σ) (p : RSDPrinter σ)
    (value : Nat) : RSDPrinter σ × Except Error Nat :=
  match ops.set p.counter value with
  | (c', Except.error e) => (⟨c', p.values⟩, Except.error e)
  | (c', Except.ok v) => (⟨c', p.values ++ [v]⟩, Except.ok v)

/-- 1 when a `set` result is `Ok`, 0 when it is `Err` — used to count the
calls that completed without error. -/
def okCount (r : Except Error Nat) : Nat :=
  match r with
  | Except.ok _ => 1
  | Except.error _ => 0

/-- Driver for a sequence of `RSDPrinter::set` calls: applies `set` once
per input value (as one run-iteration would), returning the final printer
state and the number of calls that completed without error. This is
instrumentation for stating the length invariant, not source code. -/
def RSDPrinter.setMany {σ : Type} (ops : CounterOps σ) :
    RSDPrinter σ → List Nat → RSDPrinter σ × Nat
  | p, [] => (p, 0)
  | p, v :: rest =>
    let r := RSDPrinter.set ops p v
    let r2 := RSDPrinter.setMany ops r.1 rest
    (r2.1, okCount r.2 + r2.2)

/-- The `u64` modulus: Rust `u64` arithmetic wraps modulo `2 ^ 64`
(release-profile overflow semantics). -/
def U64MOD : Nat := 2 ^ 64

/-- `self.values.iter().sum::<u64>()` (`src/event/printers/rsd/mod.rs:111`)
with `u64` wrapping addition. -/
def u64sum (values : List Nat) : Nat :=
  values.foldl (fun a v => (a + v) % U64MOD) 0

/-- `RSDPrinter::mean` (`src/event/printers/rsd/mod.rs:106-112`): `0` for
an empty `values`, otherwise the `u64` sum divided by the length with
truncating `u64` division (`Nat` division truncates identically). -/
def RSDPrinter.mean (values : List Nat) : Nat :=
  if values.isEmpty then 0 else u64sum values / values.length

/-- The `Printable::value` impl for `RSDPrinter`
(`src/event/printers/rsd/mod.rs:78-80`): exposes `self.mean()`. -/
def RSDPrinter.value {σ : Type} (p : RSDPrinter σ) : Nat :=
  RSDPrinter.mean p.values

/-- `RSDPrinter::variance` (`src/event/printers/rsd/mod.rs:115-130`):
`0.0` when fewer than two observations; otherwise the fold
`acc + (v - mean)*(v - mean)` over the observations (with `mean` the
truncated integer mean cast to float) divided by `len - 1`. The `f64`
arithmetic is modelled over `ℚ` (exact on the integer-valued inputs the
claims evaluate it at). -/
def RSDPrinter.variance (values : List Nat) : ℚ :=
  if values.length < 2 then 0
  else
    let m : ℚ := (RSDPrinter.mean values : ℚ)
    let total := values.foldl
      (fun (acc : ℚ) (v : Nat) => acc + ((v : ℚ) - m) * ((v : ℚ) - m)) 0
    total / ((values.length - 1 : Nat) : ℚ)

/-- `RSDPrinter::stddev` (`src/event/printers/rsd/mod.rs:133-135`):
`self.variance().sqrt()`, modelled as the real square root. -/
noncomputable def RSDPrinter.stddev (values : List Nat) : ℝ :=
  Real.sqrt ((RSDPrinter.variance values : ℝ))

/-- The value of an `f64` expression, distinguishing the IEEE special
values the source can produce from its final division: `nan` (0/0),
`inf` (x/0 with x > 0) and finite values (modelled as reals). -/
inductive F64 where
  | nan : F64
  | inf : F64
  | fin : ℝ → F64

/-- `RSDPrinter::rsd` (`src/event/printers/rsd/mod.rs:96-103`): `0.0` when
fewer than two observations (the only divide-by-zero guard); otherwise
`(stddev * 100) / mean` in `f64`. IEEE division by a zero mean yields
`NaN` when the numerator is zero and `+inf` otherwise; a nonzero mean
gives the finite quotient. -/
noncomputable def RSDPrinter.rsd (values : List Nat) : F64 :=
  if values.length < 2 then F64.fin 0
  else if RSDPrinter.mean values = 0 then
    (if RSDPrinter.stddev values * 100 = 0 then F64.nan else F64.inf)
  else F64.fin (RSDPrinter.stddev values * 100 / (RSDPrinter.mean values : ℝ))

/-- The state of a `RelativePrinter<T>`
(`src/event/printers/relative.rs:16-19`): the baseline (`absolute`)
counter's state and the states of the `relatives`. -/
structure RelativePrinter (σ : Type) where
  absolute : σ
  relatives : List σ
deriving DecidableEq, Repr

/-- One `for c in &mut self.relatives { c.m()?; }` loop of
`RelativePrinter`: drives a unit-result method over the relatives in
order, stopping at the first failure. -/
def forwardAll {σ : Type} (f : σ → σ × Option Error) :
    List σ → List σ × Option Error
  | [] => ([], none)
  | s :: rest =>
    match f s with
    | (s', some e) => (s' :: rest, some e)
    | (s', none) =>
      let r := forwardAll f rest
      (s' :: r.1, r.2)

/-- The `set` forwarding loop of `RelativePrinter::set`
(`src/event/printers/relative.rs:66-68`): `c.set(value)?` on each
relative in order, the `Ok` values being discarded. -/
def RelativePrinter.setRelatives {σ : Type} (ops : CounterOps σ)
    (value : Nat) : List σ → List σ × Option Error :=
  forwardAll (fun s =>
    match ops.set s value with
    | (s', Except.error e) => (s', some e)
    | (s', Except.ok _) => (s', none))

/-- `RelativePrinter::set` (`src/event/printers/relative.rs:64-70`):
`self.absolute.set(value)?; for c in &mut self.relatives {`
`c.set(value)?; } Ok(0)` — forwards to the baseline, then to every
relative in order, propagating the first error; on success returns
`Ok(0)`, regardless of the forwarded calls' returned values. -/
def RelativePrinter.set {σ : Type} (ops : CounterOps σ)
    (p : RelativePrinter σ) (value : Nat) :
    RelativePrinter σ × Except Error Nat :=
  match ops.set p.absolute value with
  | (a', Except.error e) => (⟨a', p.relatives⟩, Except.error e)
  | (a', Except.ok _) =>
    match RelativePrinter.setRelatives ops value p.relatives with
    | (rels', some e) => (⟨a', rels'⟩, Except.error e)
    | (rels', none) => (⟨a', rels'⟩, Except.ok 0)

/-- `RelativePrinter::attach` (`src/event/printers/relative.rs:43-49`). -/
def RelativePrinter.attach {σ : Type} (ops : CounterOps σ)
    (p : RelativePrinter σ) (pid : Nat) :
    RelativePrinter σ × Option Error :=
  match ops.attach p.absolute pid with
  | (a', some e) => (⟨a', p.relatives⟩, some e)
  | (a', none) =>
    match forwardAll (fun s => ops.attach s pid) p.relatives with
    | (rels', e') => (⟨a', rels'⟩, e')

/-- `RelativePrinter::start` (`src/event/printers/relative.rs:50-56`). -/
def RelativePrinter.start {σ : Type} (ops : CounterOps σ)
    (p : RelativePrinter σ) : RelativePrinter σ × Option Error :=
  match ops.start p.absolute with
  | (a', some e) => (⟨a', p.relatives⟩, some e)
  | (a', none) =>
    match forwardAll ops.start p.relatives with
    | (rels', e') => (⟨a', rels'⟩, e')

/-- `RelativePrinter::stop` (`src/event/printers/relative.rs:57-63`). -/
def RelativePrinter.stop {σ : Type} (ops : CounterOps σ)
    (p : RelativePrinter σ) : RelativePrinter σ × Option Error :=
  match ops.stop p.absolute with
  | (a', some e) => (⟨a', p.relatives⟩, some e)
  | (a', none) =>
    match forwardAll ops.stop p.relatives with
    | (rels', e') => (⟨a', rels'⟩, e')

/-- The `Counter` impl for `RelativePrinter<T>`
(`src/event/printers/relative.rs:39-71`), packaged as `CounterOps` so a
`RelativePrinter` can itself be wrapped (e.g. by an `RSDPrinter`). -/
def RelativePrinter.ops {σ : Type} (ops : CounterOps σ) :
    CounterOps (RelativePrinter σ) where
  attach := RelativePrinter.attach ops
  start := fun p => RelativePrinter.start ops p
  stop := fun p => RelativePrinter.stop ops p
  set := RelativePrinter.set ops

/-- The test double `Event` of `src/runner/tests/mock_event.rs`: an
optional recorded `value`, one-shot injectable errors per method
(consumed by `Option::take`), and an optional `set` return value. -/
structure MockEvent where
  value : Option Nat := none
  attach_err : Option Error := none
  start_err : Option Error := none
  stop_err : Option Error := none
  set_err : Option Error := none
  set_ret : Option Nat := none
deriving DecidableEq, Repr

/-- The `Counter` impl for the mock `Event`
(`src/runner/tests/mock_event.rs`): each method `take`s its error field
(clearing it) and fails iff it held `Some`; `set` first records
`value = Some(v)`, then applies `set_err`, then returns
`Ok(set_ret.unwrap_or(0))`. -/
def MockEvent.ops : CounterOps MockEvent where
  attach := fun m _pid => ({ m with attach_err := none }, m.attach_err)
  start := fun m => ({ m with start_err := none }, m.start_err)
  stop := fun m => ({ m with stop_err := none }, m.stop_err)
  set := fun m v =>
    let m' := { m with value := some v, set_err := none }
    match m.set_err with
    | some e => (m', Except.error e)
    | none => (m', Except.ok (m.set_ret.getD 0))

/-! ### Helper lemmas about the loop combinators -/

theorem range_map_shift {α : Type} (tg : Nat → α) (i n : Nat) :
    (List.range (n + 1)).map (fun j => tg (i + j))
      = tg i :: (List.range n).map (fun j => tg (i + 1 + j)) := by
  rw [List.range_succ_eq_map, List.map_cons, List.map_map]
  simp only [Nat.add_zero]
  congr 1
  apply List.map_congr_left
  intro j _
  simp only [Function.comp_apply]
  congr 1
  omega

theorem phaseLoop_cons_err {σ : Type} (f : σ → σ × Option Error)
    (tag : Nat → Call) (i : Nat) (s : σ) (rest : List σ) (s' : σ) (e : Error)
    (h : f s = (s', some e)) :
    phaseLoop f tag i (s :: rest) = (s' :: rest, [tag i], some e) := by
  simp [phaseLoop, h]

theorem phaseLoop_cons_ok {σ : Type} (f : σ → σ × Option Error)
    (tag : Nat → Call) (i : Nat) (s : σ) (rest : List σ) (s' : σ)
    (h : f s = (s', none)) :
    phaseLoop f tag i (s :: rest) =
      (s' :: (phaseLoop f tag (i + 1) rest).1,
       tag i :: (phaseLoop f tag (i + 1) rest).2.1,
       (phaseLoop f tag (i + 1) rest).2.2) := by
  simp [phaseLoop, h]

theorem phaseLoop_all_ok {σ : Type} (f : σ → σ × Option Error)
    (tag : Nat → Call) :
    ∀ (i : Nat) (l : List σ), (∀ s ∈ l, (f s).2 = none) →
    phaseLoop f tag i l =
      (l.map (fun s => (f s).1),
       (List.range l.length).map (fun j => tag (i + j)), none) := by
  intro i l
  induction l generalizing i with
  | nil => intro _; simp [phaseLoop]
  | cons s rest ih =>
    intro h
    have hs : (f s).2 = none := h s (List.mem_cons_self _ _)
    have hfs : f s = ((f s).1, none) := by rw [← hs]
    have hrest : ∀ x ∈ rest, (f x).2 = none :=
      fun x hx => h x (List.mem_cons_of_mem _ hx)
    rw [phaseLoop_cons_ok f tag i s rest _ hfs, ih (i + 1) hrest]
    simp [range_map_shift tag i rest.length]

theorem phaseLoop_first_err {σ : Type} (f : σ → σ × Option Error)
    (tag : Nat → Call) :
    ∀ (i : Nat) (l : List σ) (j : Nat) (hj : j < l.length) (e : Error),
    (f (l.get ⟨j, hj⟩)).2 = some e →
    (∀ k (hk : k < j), (f (l.get ⟨k, Nat.lt_trans hk hj⟩)).2 = none) →
    (phaseLoop f tag i l).2.2 = some e ∧
    (phaseLoop f tag i l).2.1 = (List.range (j + 1)).map (fun m => tag (i + m)) := by
  intro i l
  induction l generalizing i with
  | nil => intro j hj; exact absurd hj (Nat.not_lt_zero j)
  | cons s rest ih =>
    intro j hj e he hbefore
    cases j with
    | zero =>
      have hs : (f s).2 = some e := he
      have hfs : f s = ((f s).1, some e) := by rw [← hs]
      rw [phaseLoop_cons_err f tag i s rest _ e hfs]
      simp [List.range_succ]
    | succ j' =>
      have h0 : (f s).2 = none := hbefore 0 (Nat.succ_pos j')
      have hfs : f s = ((f s).1, none) := by rw [← h0]
      have hj' : j' < rest.length := Nat.lt_of_succ_lt_succ hj
      have he' : (f (rest.get ⟨j', hj'⟩)).2 = some e := he
      have hbefore' : ∀ k (hk : k < j'),
          (f (rest.get ⟨k, Nat.lt_trans hk hj'⟩)).2 = none :=
        fun k hk => hbefore (k + 1) (Nat.succ_lt_succ hk)
      obtain ⟨ih1, ih2⟩ := ih (i + 1) j' hj' e he' hbefore'
      rw [phaseLoop_cons_ok f tag i s rest _ hfs]
      refine ⟨ih1, ?_⟩
      rw [ih2, range_map_shift tag i (j' + 1)]

theorem phaseLoop_trace_mem {σ : Type} (f : σ → σ × Option Error)
    (tag : Nat → Call) :
    ∀ (i : Nat) (l : List σ) (c : Call),
    c ∈ (phaseLoop f tag i l).2.1 → ∃ j, c = tag j := by
  intro i l
  induction l generalizing i with
  | nil => intro c hc; simp [phaseLoop] at hc
  | cons s rest ih =>
    intro c hc
    rcases hfs : f s with ⟨s', e⟩
    cases e with
    | some e0 =>
      rw [phaseLoop_cons_err f tag i s rest s' e0 hfs] at hc
      simp at hc
      exact ⟨i, hc⟩
    | none =>
      rw [phaseLoop_cons_ok f tag i s rest s' hfs] at hc
      simp only [List.mem_cons] at hc
      rcases hc with hc | hc
      · exact ⟨i, hc⟩
      · exact ih (i + 1) c hc

theorem u64sum_go (l : List Nat) :
    ∀ a : Nat, a < U64MOD →
    l.foldl (fun x v => (x + v) % U64MOD) a = (a + l.sum) % U64MOD := by
  induction l with
  | nil => intro a ha; simp [Nat.mod_eq_of_lt ha]
  | cons v rest ih =>
    intro a ha
    have hM : 0 < U64MOD := by decide
    rw [List.foldl_cons, ih _ (Nat.mod_lt _ hM), Nat.mod_add_mod, List.sum_cons]
    congr 1
    omega

theorem u64sum_eq (l : List Nat) : u64sum l = l.sum % U64MOD := by
  have h := u64sum_go l 0 (by decide)
  simpa [u64sum] using h

theorem sum_of_zeros {M : Type} [AddMonoid M] (l : List M)
    (h : ∀ v ∈ l, v = 0) : l.sum = 0 := by
  induction l with
  | nil => rfl
  | cons v rest ih =>
    rw [List.sum_cons, h v (List.mem_cons_self _ _),
      ih (fun x hx => h x (List.mem_cons_of_mem _ hx)), zero_add]

theorem foldl_sq_eq (m : ℚ) (l : List Nat) :
    ∀ a : ℚ,
    l.foldl (fun (acc : ℚ) (v : Nat) => acc + ((v : ℚ) - m) * ((v : ℚ) - m)) a
      = a + (l.map (fun (v : Nat) => ((v : ℚ) - m) ^ 2)).sum := by
  induction l with
  | nil => intro a; simp
  | cons v rest ih =>
    intro a
    rw [List.foldl_cons, ih, List.map_cons, List.sum_cons]
    ring

/-- Unfolding equation for `RSDPrinter.variance` with at least two
observations, with the fold rewritten as a sum of squared deviations. -/
theorem variance_eq (values : List Nat) (h : 2 ≤ values.length) :
    RSDPrinter.variance values
      = (values.map (fun (v : Nat) => ((v : ℚ) - (RSDPrinter.mean values : ℚ)) ^ 2)).sum
          / ((values.length - 1 : Nat) : ℚ) := by
  simp only [RSDPrinter.variance]
  rw [if_neg (by omega), foldl_sq_eq, zero_add]

/-! ### Claim theorems -/

/-- C2: `release_and_wait` (`Child::run`) maps the reserved could-not-exec
exit code `BAD_EXEC` to `none` (a launch failure, not a benchmark
result); a normal exit with any other code `c` to `some c` — in
particular exit `0` to `some 0` and exit `1` to `some 1`; and any other
wait outcome (signal-terminated, unknown) to `none`. -/
theorem C2_release_and_wait_mapping (p q : Nat) (c : Int) :
    Child.run (some p) (WaitStatus.exited q BAD_EXEC) = none
    ∧ (c ≠ BAD_EXEC → Child.run (some p) (WaitStatus.exited q c) = some c)
    ∧ Child.run (some p) (WaitStatus.exited q 0) = some 0
    ∧ Child.run (some p) (WaitStatus.exited q 1) = some 1
    ∧ Child.run (some p) WaitStatus.signaled = none
    ∧ Child.run (some p) WaitStatus.other = none := by
  refine ⟨by simp [Child.run], fun hc => by simp [Child.run, hc], ?_, ?_, rfl, rfl⟩
  · simp [Child.run, BAD_EXEC]
  · simp [Child.run, BAD_EXEC]

/-- Witness for C2: a target exiting with code 7 (≠ `BAD_EXEC`) maps to
`some 7`. -/
theorem C2_release_and_wait_mapping_witness :
    Child.run (some 1) (WaitStatus.exited 2 7) = some 7 :=
  (C2_release_and_wait_mapping 1 2 7).2.1 (by decide)

/-- C8 counterexample: when the underlying fork fails, `Exec::exec` hits
`panic!("fork failed")` — the call does not return anything (no
`LaunchError`) to the caller; the process aborts. -/
theorem C8_fork_failure_panics_cx :
    Exec.exec ForkResult.fail = ExecOutcome.panicked "fork failed"
    ∧ ExecOutcome.isReturn (Exec.exec ForkResult.fail) = false :=
  ⟨rfl, rfl⟩

/-- C8 amended: a fork failure makes `Exec::exec` panic with
"fork failed" (fatal to the whole process), rather than returning a
`LaunchError`; on fork success the parent's handle carries the child's
pid. -/
theorem C8_fork_failure_panics (pid : Nat) :
    Exec.exec ForkResult.fail = ExecOutcome.panicked "fork failed"
    ∧ Exec.exec (ForkResult.parent pid) = ExecOutcome.handle (some pid) :=
  ⟨rfl, rfl⟩

/-- C1 counterexample: with one always-succeeding counter (the repo's
mock with no injected errors) and a child exiting with code 1 (a run
failure), `Runner::run` returns the "non-zero exit status" error with the
call trace `[attach 0, start 0]`: no `stop` call is made, so the counter
is left running — the run does not proceed to stop the counters. -/
theorem C1_failed_run_skips_stop_cx :
    (Runner.run MockEvent.ops (some 1) (WaitStatus.exited 1 1) [{}]).outcome
      = RunOutcome.err (Error.ExecError "non-zero exit status")
    ∧ (Runner.run MockEvent.ops (some 1) (WaitStatus.exited 1 1) [{}]).trace
      = [Call.attach 0 1, Call.start 0]
    ∧ Call.stop 0 ∉ (Runner.run MockEvent.ops (some 1) (WaitStatus.exited 1 1) [{}]).trace := by
  refine ⟨rfl, rfl, ?_⟩
  decide

/-- C1 amended: when the child's exit status indicates failure (exec
failure, abnormal exit, or a non-zero exit code), `Runner::run` returns
the error *before* the stop loop: no counter receives `stop` (nor the
`set(0)` reset), and the run does not succeed. Counters are stopped only
on a successful run. -/
theorem C1_failed_run_no_stop {σ : Type} (ops : CounterOps σ)
    (pid : Nat) (wait : WaitStatus) (counters : List σ)
    (hfail : Child.run (some pid) wait ≠ some 0) :
    (∀ i, Call.stop i ∉ (Runner.run ops (some pid) wait counters).trace)
    ∧ (∀ i v, Call.set i v ∉ (Runner.run ops (some pid) wait counters).trace)
    ∧ (Runner.run ops (some pid) wait counters).outcome ≠ RunOutcome.ok := by
  rcases h1 : phaseLoop (fun s => ops.attach s pid) (fun i => Call.attach i pid) 0 counters
    with ⟨s1, t1, e1⟩
  have ht1 : ∀ c ∈ t1, ∃ j, c = Call.attach j pid := fun c hc =>
    phaseLoop_trace_mem _ _ 0 counters c (by rw [h1]; exact hc)
  cases e1 with
  | some e =>
    simp only [Runner.run, h1]
    exact ⟨fun i hc => by obtain ⟨j, hj⟩ := ht1 _ hc; exact Call.noConfusion hj,
           fun i v hc => by obtain ⟨j, hj⟩ := ht1 _ hc; exact Call.noConfusion hj,
           fun h => RunOutcome.noConfusion h⟩
  | none =>
    rcases h2 : phaseLoop ops.start Call.start 0 s1 with ⟨s2, t2, e2⟩
    have ht2 : ∀ c ∈ t2, ∃ j, c = Call.start j := fun c hc =>
      phaseLoop_trace_mem _ _ 0 s1 c (by rw [h2]; exact hc)
    have hstop12 : ∀ i, Call.stop i ∉ t1 ++ t2 := by
      intro i hc
      rcases List.mem_append.mp hc with h | h
      · obtain ⟨j, hj⟩ := ht1 _ h; exact Call.noConfusion hj
      · obtain ⟨j, hj⟩ := ht2 _ h; exact Call.noConfusion hj
    have hset12 : ∀ i v, Call.set i v ∉ t1 ++ t2 := by
      intro i v hc
      rcases List.mem_append.mp hc with h | h
      · obtain ⟨j, hj⟩ := ht1 _ h; exact Call.noConfusion hj
      · obtain ⟨j, hj⟩ := ht2 _ h; exact Call.noConfusion hj
    cases e2 with
    | some e =>
      simp only [Runner.run, h1, h2]
      exact ⟨hstop12, hset12, fun h => RunOutcome.noConfusion h⟩
    | none =>
      rcases hr : Child.run (some pid) wait with _ | code
      · simp only [Runner.run, h1, h2, hr]
        exact ⟨hstop12, hset12, fun h => RunOutcome.noConfusion h⟩
      · have hcode : code ≠ 0 := fun h => hfail (by rw [hr, h])
        simp only [Runner.run, h1, h2, hr, if_neg hcode]
        exact ⟨hstop12, hset12, fun h => RunOutcome.noConfusion h⟩

/-- Witness for C1 (amended): a child exiting with code 2 leaves no
`stop` call in the trace. -/
theorem C1_failed_run_no_stop_witness :
    Call.stop 0 ∉ (Runner.run MockEvent.ops (some 1) (WaitStatus.exited 1 2) [{}]).trace :=
  (C1_failed_run_no_stop MockEvent.ops 1 (WaitStatus.exited 1 2) [{}] (by decide)).1 0

/-- C3: counters are attached in configured order — when the first attach
failure is at index `j` (earlier counters attach cleanly), the call trace
is exactly `attach 0, attach 1, …, attach j`, the run returns that
counter's error, and no counter in the set receives `start`. -/
theorem C3_attach_order_first_failure {σ : Type} (ops : CounterOps σ)
    (pid : Nat) (wait : WaitStatus) (counters : List σ) :
    ((∀ s ∈ counters, (ops.attach s pid).2 = none) →
      ∃ t, (Runner.run ops (some pid) wait counters).trace
        = (List.range counters.length).map (fun k => Call.attach k pid) ++ t)
    ∧ ∀ (j : Nat) (hj : j < counters.length) (e : Error),
      (ops.attach (counters.get ⟨j, hj⟩) pid).2 = some e →
      (∀ k (hk : k < j),
        (ops.attach (counters.get ⟨k, Nat.lt_trans hk hj⟩) pid).2 = none) →
      (Runner.run ops (some pid) wait counters).outcome = RunOutcome.err e
      ∧ (Runner.run ops (some pid) wait counters).trace
          = (List.range (j + 1)).map (fun k => Call.attach k pid)
      ∧ ∀ i, Call.start i ∉ (Runner.run ops (some pid) wait counters).trace := by
  constructor
  · intro hattach
    have h1 := phaseLoop_all_ok (fun s => ops.attach s pid)
      (fun i => Call.attach i pid) 0 counters hattach
    simp only [Nat.zero_add] at h1
    rcases h2 : phaseLoop ops.start Call.start 0
        (counters.map (fun s => (ops.attach s pid).1)) with ⟨s2, t2, e2⟩
    cases e2 with
    | some e =>
      have hrun : Runner.run ops (some pid) wait counters
          = ⟨s2, (List.range counters.length).map (fun k => Call.attach k pid) ++ t2,
             RunOutcome.panic "called unwrap on an Err value"⟩ := by
        simp only [Runner.run, h1, h2]
      exact ⟨t2, by rw [hrun]⟩
    | none =>
      rcases hr : Child.run (some pid) wait with _ | code
      · have hrun : Runner.run ops (some pid) wait counters
            = ⟨s2, (List.range counters.length).map (fun k => Call.attach k pid) ++ t2,
               RunOutcome.err (Error.ExecError "failed to exec")⟩ := by
          simp only [Runner.run, h1, h2, hr]
        exact ⟨t2, by rw [hrun]⟩
      · by_cases hc : code = 0
        · subst hc
          rcases h3 : phaseLoop ops.stop Call.stop 0 s2 with ⟨s3, t3, e3⟩
          cases e3 with
          | some e =>
            have hrun : Runner.run ops (some pid) wait counters
                = ⟨s3, ((List.range counters.length).map (fun k => Call.attach k pid) ++ t2)
                    ++ t3, RunOutcome.panic "called unwrap on an Err value"⟩ := by
              simp only [Runner.run, h1, h2, hr, if_pos rfl, if_true, h3]
            exact ⟨t2 ++ t3, by rw [hrun]; simp [List.append_assoc]⟩
          | none =>
            rcases h4 : phaseLoop (setStep ops) (fun i => Call.set i 0) 0 s3
              with ⟨s4, t4, e4⟩
            cases e4 with
            | some e =>
              have hrun : Runner.run ops (some pid) wait counters
                  = ⟨s4, (((List.range counters.length).map (fun k => Call.attach k pid)
                      ++ t2) ++ t3) ++ t4, RunOutcome.err e⟩ := by
                simp only [Runner.run, h1, h2, hr, if_pos rfl, if_true, h3, h4]
              exact ⟨t2 ++ t3 ++ t4, by rw [hrun]; simp [List.append_assoc]⟩
            | none =>
              have hrun : Runner.run ops (some pid) wait counters
                  = ⟨s4, (((List.range counters.length).map (fun k => Call.attach k pid)
                      ++ t2) ++ t3) ++ t4, RunOutcome.ok⟩ := by
                simp only [Runner.run, h1, h2, hr, if_pos rfl, if_true, h3, h4]
              exact ⟨t2 ++ t3 ++ t4, by rw [hrun]; simp [List.append_assoc]⟩
        · have hrun : Runner.run ops (some pid) wait counters
              = ⟨s2, (List.range counters.length).map (fun k => Call.attach k pid) ++ t2,
                 RunOutcome.err (Error.ExecError "non-zero exit status")⟩ := by
            simp only [Runner.run, h1, h2, hr, if_neg hc]
          exact ⟨t2, by rw [hrun]⟩
  · intro j hj e hfailj hok
    obtain ⟨herr, htr⟩ := phaseLoop_first_err (fun s => ops.attach s pid)
      (fun i => Call.attach i pid) 0 counters j hj e hfailj hok
    rcases h1 : phaseLoop (fun s => ops.attach s pid) (fun i => Call.attach i pid) 0 counters
      with ⟨s1, t1, e1⟩
    rw [h1] at herr htr
    simp only at herr htr
    subst herr
    have hrun : Runner.run ops (some pid) wait counters = ⟨s1, t1, RunOutcome.err e⟩ := by
      simp only [Runner.run, h1]
    have htrace : t1 = (List.range (j + 1)).map (fun k => Call.attach k pid) := by
      rw [htr]
      apply List.map_congr_left
      intro m _
      simp
    rw [hrun]
    refine ⟨rfl, htrace, ?_⟩
    intro i hc
    have hc' : Call.start i ∈ t1 := hc
    rw [htrace] at hc'
    simp at hc'

/-- Witness for C3: three mock counters, the middle one failing attach
with `MockError`: the run errs with `MockError`, the trace is
`[attach 0, attach 1]`, and counter 0 never receives `start`. -/
theorem C3_attach_order_first_failure_witness :
    (Runner.run MockEvent.ops (some 3) (WaitStatus.exited 3 0)
        [{}, { attach_err := some Error.MockError }, {}]).outcome
      = RunOutcome.err Error.MockError
    ∧ (Runner.run MockEvent.ops (some 3) (WaitStatus.exited 3 0)
        [{}, { attach_err := some Error.MockError }, {}]).trace
      = [Call.attach 0 3, Call.attach 1 3]
    ∧ Call.start 0 ∉ (Runner.run MockEvent.ops (some 3) (WaitStatus.exited 3 0)
        [{}, { attach_err := some Error.MockError }, {}]).trace := by
  obtain ⟨ho, htr, hs⟩ := (C3_attach_order_first_failure MockEvent.ops 3
    (WaitStatus.exited 3 0) [{}, { attach_err := some Error.MockError }, {}]).2 1
    (by decide) Error.MockError (by decide) (by decide)
  refine ⟨ho, ?_, hs 0⟩
  rw [htr]
  decide

/-- C4 counterexample: a counter whose `start` fails makes `Runner::run`
panic (the `.unwrap()` at `src/runner/mod.rs:52`): the whole process
crashes, and no `Error` value — distinguishable or otherwise — is
surfaced to the caller. -/
theorem C4_start_failure_panics_cx :
    (Runner.run MockEvent.ops (some 1) (WaitStatus.exited 1 0)
        [{}, { start_err := some Error.MockError }, {}]).outcome
      = RunOutcome.panic "called unwrap on an Err value"
    ∧ (Runner.run MockEvent.ops (some 1) (WaitStatus.exited 1 0)
        [{}, { start_err := some Error.MockError }, {}]).outcome
      ≠ RunOutcome.err Error.MockError := by
  refine ⟨rfl, ?_⟩
  decide

/-- C4 amended: when every attach succeeds and the first `start` failure
is at index `j`, `Runner::run` panics via `.unwrap()` — fatal to the
whole process, not just the iteration (matching the repo's
`should_panic` test `start_err`); no `Error` return reaches the caller. -/
theorem C4_start_failure_panics {σ : Type} (ops : CounterOps σ)
    (pid : Nat) (wait : WaitStatus) (counters : List σ)
    (hattach : ∀ s ∈ counters, (ops.attach s pid).2 = none)
    (j : Nat) (hj : j < (counters.map (fun s => (ops.attach s pid).1)).length)
    (e : Error)
    (hstartj : (ops.start ((counters.map (fun s => (ops.attach s pid).1)).get ⟨j, hj⟩)).2
      = some e)
    (hok : ∀ k (hk : k < j),
      (ops.start ((counters.map (fun s => (ops.attach s pid).1)).get
        ⟨k, Nat.lt_trans hk hj⟩)).2 = none) :
    (Runner.run ops (some pid) wait counters).outcome
      = RunOutcome.panic "called unwrap on an Err value" := by
  have h1 := phaseLoop_all_ok (fun s => ops.attach s pid)
    (fun i => Call.attach i pid) 0 counters hattach
  obtain ⟨herr, -⟩ := phaseLoop_first_err ops.start Call.start 0
    (counters.map (fun s => (ops.attach s pid).1)) j hj e hstartj hok
  rcases h2 : phaseLoop ops.start Call.start 0 (counters.map (fun s => (ops.attach s pid).1))
    with ⟨s2, t2, e2⟩
  rw [h2] at herr
  simp only at herr
  subst herr
  simp only [Runner.run, h1, h2]

/-- Witness for C4 (amended): one mock counter with an injected
`start_err` makes the run panic. -/
theorem C4_start_failure_panics_witness :
    (Runner.run MockEvent.ops (some 1) (WaitStatus.exited 1 0)
        [{ start_err := some Error.MockError }]).outcome
      = RunOutcome.panic "called unwrap on an Err value" :=
  C4_start_failure_panics MockEvent.ops 1 (WaitStatus.exited 1 0)
    [{ start_err := some Error.MockError }] (by decide) 0 (by decide)
    Error.MockError (by decide) (by decide)

/-- C5 counterexample: for the observation sequence `[2^63, 2^63]` the
`u64` sum wraps to 0 (Rust release-profile overflow; a debug build would
panic instead), so the exposed mean is 0 while
`floor(sum / count) = 2^63`: the claimed identity fails on sequences
whose sum overflows a `u64`. -/
theorem C5_mean_overflow_cx :
    RSDPrinter.mean [2 ^ 63, 2 ^ 63] = 0
    ∧ ([2 ^ 63, 2 ^ 63] : List Nat).sum / ([2 ^ 63, 2 ^ 63] : List Nat).length = 2 ^ 63
    ∧ RSDPrinter.mean [2 ^ 63, 2 ^ 63]
        ≠ ([2 ^ 63, 2 ^ 63] : List Nat).sum / ([2 ^ 63, 2 ^ 63] : List Nat).length := by
  refine ⟨?_, ?_, ?_⟩ <;> decide

/-- C5 amended: the exposed mean is `floor((sum mod 2^64) / count)`
with truncating integer division — the `u64` sum wraps on overflow.
Whenever the sum of the observations fits in a `u64`, the claimed
identity `mean = floor(sum / count)` holds; the mean is 0 for an empty
sequence; and the value the wrapper exposes for display/ratio purposes
(`Printable::value`) is this mean, not the latest raw observation
(e.g. for `[10, 20]` it exposes 15, not 20). -/
theorem C5_mean_formula {σ : Type} (values : List Nat) (p : RSDPrinter σ) :
    RSDPrinter.mean values = (values.sum % U64MOD) / values.length
    ∧ (values.sum < U64MOD → RSDPrinter.mean values = values.sum / values.length)
    ∧ RSDPrinter.mean [] = 0
    ∧ RSDPrinter.value p = RSDPrinter.mean p.values
    ∧ RSDPrinter.value (⟨(), [10, 20]⟩ : RSDPrinter Unit) = 15 := by
  have hmod : RSDPrinter.mean values = (values.sum % U64MOD) / values.length := by
    cases values with
    | nil => simp [RSDPrinter.mean]
    | cons v rest => simp [RSDPrinter.mean, u64sum_eq]
  refine ⟨hmod, fun hlt => ?_, rfl, rfl, by decide⟩
  rw [hmod, Nat.mod_eq_of_lt hlt]

/-- Witness for C5 (amended): for `[1, 2, 3]` (no overflow) the mean is
`floor(6 / 3) = 2`. -/
theorem C5_mean_formula_witness :
    RSDPrinter.mean [1, 2, 3]
      = ([1, 2, 3] : List Nat).sum / ([1, 2, 3] : List Nat).length :=
  (C5_mean_formula [1, 2, 3] (⟨(), []⟩ : RSDPrinter Unit)).2.1 (by decide)

/-- C6: the variance is the Bessel-corrected sum of squared deviations
from the (truncated integer) mean, `0` when fewer than two observations;
the stddev is its square root; the rsd is `stddev * 100 / mean` (`0` when
fewer than two observations); and for `[0, 10, 20, 30, 40]` the mean is
20, the variance is exactly 250, the stddev lies in
`(15.8113, 15.8115)` (≈ 15.8114) and the rsd in `(79.0569, 79.057)`
(≈ 79.0569%). `f64` arithmetic is modelled over `ℚ`/`ℝ`; the claimed
values are exact or bracketed accordingly. -/
theorem C6_aggregator_stats :
    (∀ values : List Nat, values.length < 2 →
      RSDPrinter.variance values = 0 ∧ RSDPrinter.rsd values = F64.fin 0)
    ∧ (∀ values : List Nat, 2 ≤ values.length →
      RSDPrinter.variance values
        = (values.map (fun (v : Nat) => ((v : ℚ) - (RSDPrinter.mean values : ℚ)) ^ 2)).sum
            / ((values.length - 1 : Nat) : ℚ))
    ∧ (∀ values : List Nat,
      RSDPrinter.stddev values = Real.sqrt ((RSDPrinter.variance values : ℝ)))
    ∧ (∀ values : List Nat, 2 ≤ values.length → RSDPrinter.mean values ≠ 0 →
      RSDPrinter.rsd values
        = F64.fin (RSDPrinter.stddev values * 100 / (RSDPrinter.mean values : ℝ)))
    ∧ RSDPrinter.mean [0, 10, 20, 30, 40] = 20
    ∧ RSDPrinter.variance [0, 10, 20, 30, 40] = 250
    ∧ (15.8113 < RSDPrinter.stddev [0, 10, 20, 30, 40]
        ∧ RSDPrinter.stddev [0, 10, 20, 30, 40] < 15.8115)
    ∧ RSDPrinter.rsd [0, 10, 20, 30, 40]
        = F64.fin (RSDPrinter.stddev [0, 10, 20, 30, 40] * 100 / 20)
    ∧ (79.0569 < RSDPrinter.stddev [0, 10, 20, 30, 40] * 100 / 20
        ∧ RSDPrinter.stddev [0, 10, 20, 30, 40] * 100 / 20 < 79.057) := by
  have hmean : RSDPrinter.mean [0, 10, 20, 30, 40] = 20 := by decide
  have hvar : RSDPrinter.variance [0, 10, 20, 30, 40] = 250 := by
    rw [variance_eq _ (by decide), hmean]
    norm_num [List.map_cons, List.map_nil, List.sum_cons, List.sum_nil]
  have hstd : RSDPrinter.stddev [0, 10, 20, 30, 40] = Real.sqrt 250 := by
    rw [RSDPrinter.stddev, hvar]
    norm_num
  have hlb : (15.81138 : ℝ) < Real.sqrt 250 :=
    (Real.lt_sqrt (by norm_num)).mpr (by norm_num)
  have hub : Real.sqrt 250 < (15.8114 : ℝ) :=
    (Real.sqrt_lt' (by norm_num)).mpr (by norm_num)
  have hrsdx : RSDPrinter.rsd [0, 10, 20, 30, 40]
      = F64.fin (RSDPrinter.stddev [0, 10, 20, 30, 40] * 100 / 20) := by
    simp only [RSDPrinter.rsd]
    rw [if_neg (by decide), if_neg (by rw [hmean]; decide), hmean]
    norm_num
  refine ⟨?_, ?_, fun _ => rfl, ?_, hmean, hvar, ⟨?_, ?_⟩, hrsdx, ⟨?_, ?_⟩⟩
  · intro values h
    constructor
    · simp only [RSDPrinter.variance]
      rw [if_pos h]
    · simp only [RSDPrinter.rsd]
      rw [if_pos h]
  · exact fun values h => variance_eq values h
  · intro values h2 hm
    simp only [RSDPrinter.rsd]
    rw [if_neg (by omega), if_neg hm]
  · rw [hstd]; linarith
  · rw [hstd]; linarith
  · rw [hstd]; linarith
  · rw [hstd]; linarith

/-- Witness for C6: the degenerate branch at a single observation —
variance and rsd are 0. -/
theorem C6_aggregator_stats_witness :
    RSDPrinter.variance [42] = 0 ∧ RSDPrinter.rsd [42] = F64.fin 0 :=
  C6_aggregator_stats.1 [42] (by decide)

/-- C10: for an observation sequence of length at least 2 whose values
are all zero, the rsd is the IEEE quotient `(0 * 100) / 0 = NaN`, not
`0.0` — the `n < 2` guard does not cover a zero mean. -/
theorem C10_rsd_zero_mean_nan (values : List Nat)
    (hlen : 2 ≤ values.length) (hzero : ∀ v ∈ values, v = 0) :
    RSDPrinter.rsd values = F64.nan ∧ RSDPrinter.rsd values ≠ F64.fin 0 := by
  have hsum : values.sum = 0 := sum_of_zeros values hzero
  have hmean : RSDPrinter.mean values = 0 := by
    cases values with
    | nil => rfl
    | cons v rest =>
      simp only [RSDPrinter.mean, u64sum_eq]
      rw [List.isEmpty_cons]
      simp [hsum]
  have hvar : RSDPrinter.variance values = 0 := by
    rw [variance_eq values hlen]
    have hmap : ∀ x ∈ values.map
        (fun (v : Nat) => ((v : ℚ) - (RSDPrinter.mean values : ℚ)) ^ 2), x = 0 := by
      intro x hx
      obtain ⟨v, hv, rfl⟩ := List.mem_map.mp hx
      rw [hzero v hv, hmean]
      norm_num
    rw [sum_of_zeros _ hmap, zero_div]
  have hstd : RSDPrinter.stddev values = 0 := by
    rw [RSDPrinter.stddev, hvar]
    norm_num
  have hrsd : RSDPrinter.rsd values = F64.nan := by
    simp only [RSDPrinter.rsd]
    rw [if_neg (by omega), if_pos hmean, if_pos (by rw [hstd]; ring)]
  exact ⟨hrsd, by rw [hrsd]; exact fun h => F64.noConfusion h⟩

/-- Witness for C10: two zero observations give `NaN`. -/
theorem C10_rsd_zero_mean_nan_witness :
    RSDPrinter.rsd [0, 0] = F64.nan :=
  (C10_rsd_zero_mean_nan [0, 0] (by decide) (by decide)).1

/-- One `RSDPrinter::set` call grows `values` by 1 exactly when the
forwarded call succeeded. -/
theorem set_values_length {σ : Type} (ops : CounterOps σ)
    (p : RSDPrinter σ) (v : Nat) :
    ((RSDPrinter.set ops p v).1).values.length
      = p.values.length + okCount (RSDPrinter.set ops p v).2 := by
  rcases h : ops.set p.counter v with ⟨c', r⟩
  cases r <;> simp [RSDPrinter.set, h, okCount]

/-- C7: `RSDPrinter::set` forwards to the wrapped counter; on success it
appends the counter's returned magnitude to the observation sequence and
yields it; on failure the error propagates and nothing is appended.
Consequently, over any sequence of `set` calls, the length of the
observation sequence grows by exactly the number of calls that completed
without error. -/
theorem C7_record_appends_on_success {σ : Type} (ops : CounterOps σ)
    (p : RSDPrinter σ) (v : Nat) (vs : List Nat) :
    (∀ w c', ops.set p.counter v = (c', Except.ok w) →
      RSDPrinter.set ops p v = (⟨c', p.values ++ [w]⟩, Except.ok w))
    ∧ (∀ e c', ops.set p.counter v = (c', Except.error e) →
      RSDPrinter.set ops p v = (⟨c', p.values⟩, Except.error e))
    ∧ (RSDPrinter.setMany ops p vs).1.values.length
        = p.values.length + (RSDPrinter.setMany ops p vs).2 := by
  refine ⟨?_, ?_, ?_⟩
  · intro w c' h
    simp [RSDPrinter.set, h]
  · intro e c' h
    simp [RSDPrinter.set, h]
  · induction vs generalizing p with
    | nil => simp [RSDPrinter.setMany]
    | cons v0 rest ih =>
      have hstep := set_values_length ops p v0
      simp only [RSDPrinter.setMany]
      rw [ih ((RSDPrinter.set ops p v0).1)]
      omega

/-- Witness for C7: a mock counter whose `set` returns 5 — the
observation 5 is appended. -/
theorem C7_record_appends_on_success_witness :
    RSDPrinter.set MockEvent.ops (⟨{ set_ret := some 5 }, [9]⟩ : RSDPrinter MockEvent) 3
      = (⟨{ value := some 3, set_ret := some 5 }, [9, 5]⟩, Except.ok 5) :=
  (C7_record_appends_on_success MockEvent.ops
      (⟨{ set_ret := some 5 }, [9]⟩ : RSDPrinter MockEvent) 3 []).1
    5 { value := some 3, set_ret := some 5 } rfl

/-- A successful `RelativePrinter::set` always returns magnitude 0. -/
theorem relative_set_ok_zero {σ : Type} (ops : CounterOps σ)
    (p : RelativePrinter σ) (value n : Nat) (p' : RelativePrinter σ)
    (h : RelativePrinter.set ops p value = (p', Except.ok n)) : n = 0 := by
  rcases ha : ops.set p.absolute value with ⟨a', ra⟩
  cases ra with
  | error e =>
    have hset : RelativePrinter.set ops p value = (⟨a', p.relatives⟩, Except.error e) := by
      simp only [RelativePrinter.set]
      rw [ha]
    rw [hset] at h
    exact absurd (congrArg Prod.snd h) (fun hh => Except.noConfusion hh)
  | ok w =>
    rcases hrels : RelativePrinter.setRelatives ops value p.relatives with ⟨rels', er⟩
    cases er with
    | some e =>
      have hset : RelativePrinter.set ops p value = (⟨a', rels'⟩, Except.error e) := by
        simp only [RelativePrinter.set]
        rw [ha, hrels]
      rw [hset] at h
      exact absurd (congrArg Prod.snd h) (fun hh => Except.noConfusion hh)
    | none =>
      have hset : RelativePrinter.set ops p value = (⟨a', rels'⟩, Except.ok 0) := by
        simp only [RelativePrinter.set]
        rw [ha, hrels]
      rw [hset] at h
      have h2 : (Except.ok 0 : Except Error Nat) = Except.ok n := congrArg Prod.snd h
      injection h2 with h3
      omega

/-- C9: a `record`/`set` call on a `RelativePrinter` (Comparator) that
succeeds returns the magnitude 0, regardless of the values returned by
the baseline and relative counters it forwards to; consequently an
`RSDPrinter` (Aggregator) wrapping a `RelativePrinter` appends 0 to its
observation sequence on every successful call. -/
theorem C9_relative_set_returns_zero {σ : Type} (ops : CounterOps σ)
    (p : RelativePrinter σ) (value n r : Nat) (p' : RelativePrinter σ)
    (q q' : RSDPrinter (RelativePrinter σ)) :
    (RelativePrinter.set ops p value = (p', Except.ok n) → n = 0)
    ∧ (RSDPrinter.set (RelativePrinter.ops ops) q value = (q', Except.ok r) →
        r = 0 ∧ q'.values = q.values ++ [0]) := by
  refine ⟨relative_set_ok_zero ops p value n p', ?_⟩
  intro h
  rcases hs : RelativePrinter.set ops q.counter value with ⟨c', rr⟩
  cases rr with
  | error e =>
    have hset : RSDPrinter.set (RelativePrinter.ops ops) q value
        = (⟨c', q.values⟩, Except.error e) := by
      simp only [RSDPrinter.set]
      rw [show (RelativePrinter.ops ops).set q.counter value
        = (c', Except.error e) from hs]
    rw [hset] at h
    exact absurd (congrArg Prod.snd h) (fun hh => Except.noConfusion hh)
  | ok w =>
    have hw : w = 0 := relative_set_ok_zero ops q.counter value w c' hs
    have hset : RSDPrinter.set (RelativePrinter.ops ops) q value
        = (⟨c', q.values ++ [w]⟩, Except.ok w) := by
      simp only [RSDPrinter.set]
      rw [show (RelativePrinter.ops ops).set q.counter value
        = (c', Except.ok w) from hs]
    rw [hset] at h
    have h1 : (⟨c', q.values ++ [w]⟩ : RSDPrinter (RelativePrinter σ)) = q' :=
      congrArg Prod.fst h
    have h2 : (Except.ok w : Except Error Nat) = Except.ok r := congrArg Prod.snd h
    injection h2 with hwr
    refine ⟨by omega, ?_⟩
    rw [← h1]
    simp [hw]

/-- Witness for C9: a `RelativePrinter` over mocks returning 5 and 7
still yields magnitude 0, and the wrapping `RSDPrinter` appends 0. -/
theorem C9_relative_set_returns_zero_witness :
    ((RSDPrinter.set (RelativePrinter.ops MockEvent.ops)
        (⟨⟨{ set_ret := some 5 }, [{ set_ret := some 7 }]⟩, []⟩ :
          RSDPrinter (RelativePrinter MockEvent)) 9).1).values = [0] := by
  have h := (C9_relative_set_returns_zero MockEvent.ops
    ⟨{ set_ret := some 5 }, [{ set_ret := some 7 }]⟩ 9 0 0
    ⟨{ set_ret := some 5 }, [{ set_ret := some 7 }]⟩
    (⟨⟨{ set_ret := some 5 }, [{ set_ret := some 7 }]⟩, []⟩ :
      RSDPrinter (RelativePrinter MockEvent))
    ((RSDPrinter.set (RelativePrinter.ops MockEvent.ops)
        (⟨⟨{ set_ret := some 5 }, [{ set_ret := some 7 }]⟩, []⟩ :
          RSDPrinter (RelativePrinter MockEvent)) 9).1)).2 rfl
  simpa using h.2

end Benchpmc
